import Mathlib

set_option autoImplicit false

/-!
Shallow embedding of the ConfigToolbar coordination/positioning engine of
Perfect-One-Software/editor.js (src/components/modules/configToolbar/index.ts),
of the built-in MoveDownTune (src/components/block-tunes/block-tune-move-down.ts)
and DeleteTune (src/components/events/SettingsClicked.ts, appended part),
together with theorems settling the frozen claims about them.

DOM nodes are modelled by their observable class-list / style state; JavaScript
accesses to `undefined` that would throw a TypeError are modelled with `Except`.
-/

namespace ConfigToolbarSpec

/-- A content block as the toolbar sees it: flags plus on-screen geometry.
`holder.offsetTop` and `holder.offsetHeight` are integral per the DOM spec;
the computed `padding-top` of `pluginsContent` and the client-rect `top` may be
fractional, hence rationals. -/
structure Block where
  blockId : Nat
  isEmpty : Bool
  editable : Bool
  holderOffsetTop : Int
  holderOffsetHeight : Int
  contentPaddingTop : ℚ
  boundingTop : ℚ
  deriving DecidableEq

/-- JavaScript `parseInt` applied to a computed pixel length: truncation toward
zero of the numeric value. -/
def jsParseInt (q : ℚ) : Int := if q < 0 then -⌊-q⌋ else ⌊q⌋

/-- The wrapper's inline `style.top`: never assigned yet, a pixel value set by
`moveAndOpen`, or the `'unset'` sentinel written by `reset`. -/
inductive TopStyle
  | initial
  | px (y : Int)
  | unset
  deriving DecidableEq

/-- Class-list / style state of the constructed toolbar nodes. `make()` creates
wrapper, content, actions and settingsToggler together, so one record stands for
all of them; `none` at the use sites below means the UI was never built (or was
destroyed). -/
structure ToolbarNodes where
  /-- wrapper carries `ce-config-toolbar--opened` -/
  toolbarOpened : Bool
  /-- actions zone carries `ce-config-toolbar__actions--opened` -/
  actionsOpened : Bool
  /-- settingsToggler carries `ce-config-toolbar__settings-btn--hidden` -/
  settingsTogglerHidden : Bool
  /-- wrapper's inline `style.top` -/
  topStyle : TopStyle
  deriving DecidableEq

/-- Freshly made nodes: no modifier classes, no inline top. -/
def ToolbarNodes.fresh : ToolbarNodes :=
  { toolbarOpened := false
    actionsOpened := false
    settingsTogglerHidden := false
    topStyle := TopStyle.initial }

/-- Mutable state owned by the ConfigToolbar module instance. -/
structure ToolbarState where
  nodes : Option ToolbarNodes
  hoveredBlock : Option Block
  /-- the settingsToggler mousedown listener registered through
  `readOnlyMutableListeners` -/
  domListenerBound : Bool
  /-- number of `eventsDispatcher.on(BlockHovered, …)` registrations made by
  `enableModuleBindings` -/
  hoverSubscriptions : Nat
  /-- timeouts (ms) of `requestIdleCallback` tasks scheduled by `toggleReadOnly`
  and not yet fired -/
  pendingIdleTimeouts : List Nat
  deriving DecidableEq

/-- Module state at construction: no UI, nothing hovered, nothing bound. -/
def ToolbarState.init : ToolbarState :=
  { nodes := none
    hoveredBlock := none
    domListenerBound := false
    hoverSubscriptions := 0
    pendingIdleTimeouts := [] }

/-- External collaborators read by the module: the Block Sequence's blocks,
the viewport form factor, and the global read-only flag. -/
structure Env where
  blocks : List Block
  isMobile : Bool
  readOnlyEnabled : Bool
  deriving DecidableEq

/-- The slice of the editor configuration the module consumes.
`hideConfigToolbar` may be absent; the code reads it as `?? true`. -/
structure EditorConfig where
  hideConfigToolbar : Option Bool
  deriving DecidableEq

/-- JavaScript TypeError raised by member access on `undefined`. -/
inductive JsError
  | typeError
  deriving DecidableEq

/-- blockActions.hide: remove the actions-opened class. -/
def blockActionsHide (n : ToolbarNodes) : ToolbarNodes :=
  { n with actionsOpened := false }

/-- blockActions.show: add the actions-opened class. -/
def blockActionsShow (n : ToolbarNodes) : ToolbarNodes :=
  { n with actionsOpened := true }

/-- blockTunesToggler.hide: add the toggler-hidden class. -/
def blockTunesTogglerHide (n : ToolbarNodes) : ToolbarNodes :=
  { n with settingsTogglerHidden := true }

/-- blockTunesToggler.show: remove the toggler-hidden class. -/
def blockTunesTogglerShow (n : ToolbarNodes) : ToolbarNodes :=
  { n with settingsTogglerHidden := false }

/-- ConfigToolbar.reset: `this.nodes.wrapper.style.top = 'unset'` (node known
to exist at this model's call site). -/
def reset (n : ToolbarNodes) : ToolbarNodes :=
  { n with topStyle := TopStyle.unset }

/-- The `toolbarY` computed by ConfigToolbar.moveAndOpen before flooring:
mobile uses `offsetTop + offsetHeight`, desktop uses
`offsetTop + parseInt(computedStyle.paddingTop, 10)`. -/
def moveAndOpenToolbarY (isMobile : Bool) (b : Block) : ℚ :=
  if isMobile then ((b.holderOffsetTop + b.holderOffsetHeight : Int) : ℚ)
  else ((b.holderOffsetTop + jsParseInt b.contentPaddingTop : Int) : ℚ)

/-- ConfigToolbar.open (private): add the opened class to the wrapper, then
show or hide the block actions according to `withBlockActions`. When the nodes
are absent the very first access (`this.nodes.wrapper.classList`) throws and
nothing was mutated, so the state is returned unchanged. -/
def openRun (s : ToolbarState) (withBlockActions : Bool) : ToolbarState :=
  match s.nodes with
  | none => s
  | some n =>
    let n1 := { n with toolbarOpened := true }
    { s with nodes := some (if withBlockActions then blockActionsShow n1 else blockActionsHide n1) }

/-- ConfigToolbar.moveAndOpen: no-op when the block argument is absent or the
wrapper is not built; otherwise record the hovered block, position the wrapper
at `Math.floor(toolbarY)`, recompute the toggler visibility (hidden near a
single empty block), and `open()` with default block actions. -/
def moveAndOpen (e : Env) (s : ToolbarState) (block : Option Block) : ToolbarState :=
  match block, s.nodes with
  | none, _ => s
  | some _, none => s
  | some b, some n =>
    let toolbarY := moveAndOpenToolbarY e.isMobile b
    let n1 := { n with topStyle := TopStyle.px ⌊toolbarY⌋ }
    let n2 := if e.blocks.length == 1 && b.isEmpty
              then blockTunesTogglerHide n1
              else blockTunesTogglerShow n1
    openRun { s with hoveredBlock := some b, nodes := some n2 } true

/-- ConfigToolbar.close: no-op under global read-only. Otherwise
`nodes.wrapper?.classList.remove(opened)` (skipped when the wrapper is absent),
then `blockActions.hide()` reads `this.nodes.actions.classList` without a
guard — when the UI was never built this throws a TypeError with no prior
mutation (make() creates wrapper and actions together, so they are absent
together) — and finally `reset()`. -/
def close (e : Env) (s : ToolbarState) : Except JsError ToolbarState :=
  if e.readOnlyEnabled then Except.ok s
  else
    match s.nodes with
    | none => Except.error JsError.typeError
    | some n =>
      Except.ok { s with nodes := some (reset (blockActionsHide { n with toolbarOpened := false })) }

/-- Running `close` as one dispatched UI event: an uncaught throw leaves the
state as it was at the throw point, which for the only throwing branch is the
unmodified input state. -/
def closeRun (e : Env) (s : ToolbarState) : ToolbarState :=
  match close e s with
  | Except.ok t => t
  | Except.error _ => s

/-- ConfigToolbar.drawUI: `make()` builds fresh wrapper/content/actions/toggler
nodes and stores them on the module. -/
def drawUI (s : ToolbarState) : ToolbarState :=
  { s with nodes := some ToolbarNodes.fresh }

/-- ConfigToolbar.enableModuleBindings: binds the settingsToggler mousedown
listener via `readOnlyMutableListeners`, and subscribes to the BlockHovered
dispatcher event when the screen is not mobile. -/
def enableModuleBindings (e : Env) (s : ToolbarState) : ToolbarState :=
  { s with
      domListenerBound := true
      hoverSubscriptions := if e.isMobile then s.hoverSubscriptions else s.hoverSubscriptions + 1 }

/-- ConfigToolbar.disableModuleBindings: `readOnlyMutableListeners.clearAll()`.
Only the listeners registered through that helper are removed; the
`eventsDispatcher.on(BlockHovered, …)` subscription is not touched. -/
def disableModuleBindings (s : ToolbarState) : ToolbarState :=
  { s with domListenerBound := false }

/-- ConfigToolbar.destroy. Modelled from the spec for the base-module helper
`removeAllNodes` (not under src/): enabling read-only "tears down all
constructed UI nodes". -/
def destroy (s : ToolbarState) : ToolbarState :=
  { s with nodes := none }

/-- ConfigToolbar.toggleReadOnly: leaving read-only with the toolbar not opted
out schedules `drawUI` + `enableModuleBindings` through `requestIdleCallback`
with a 2000 ms timeout; every other combination tears the UI down and clears
the read-only-mutable listeners. -/
def toggleReadOnly (cfg : EditorConfig) (s : ToolbarState) (readOnlyEnabled : Bool) : ToolbarState :=
  if !readOnlyEnabled && !(cfg.hideConfigToolbar.getD true) then
    { s with pendingIdleTimeouts := s.pendingIdleTimeouts ++ [2000] }
  else
    disableModuleBindings (destroy s)

/-- The browser firing one pending `requestIdleCallback` task: the scheduled
callback runs `drawUI()` first and `enableModuleBindings()` after it. -/
def idleFire (e : Env) (s : ToolbarState) : ToolbarState :=
  match s.pendingIdleTimeouts with
  | [] => s
  | _ :: rest => enableModuleBindings e (drawUI { s with pendingIdleTimeouts := rest })

/-- Whether the wrapper exists and carries the opened class (the `opened`
getter, read semantically: a missing wrapper shows nothing). -/
def openedFlag (s : ToolbarState) : Bool :=
  match s.nodes with
  | some n => n.toolbarOpened
  | none => false

/-- Whether the actions zone exists and carries the actions-opened class. -/
def actionsVisible (s : ToolbarState) : Bool :=
  match s.nodes with
  | some n => n.actionsOpened
  | none => false

/-- Whether the settings toggler exists and carries the hidden class. -/
def togglerHidden (s : ToolbarState) : Bool :=
  match s.nodes with
  | some n => n.settingsTogglerHidden
  | none => false

/-- The wrapper's inline `style.top`, when the wrapper exists. -/
def topOf (s : ToolbarState) : Option TopStyle :=
  match s.nodes with
  | some n => some n.topStyle
  | none => none

/-- Whether an `Except` result is a normal return. -/
def exceptOk (r : Except JsError ToolbarState) : Bool :=
  match r with
  | Except.ok _ => true
  | Except.error _ => false

/-- The positioning rule in the spec's words (for comparison with the code's
`moveAndOpenToolbarY`): mobile is top offset plus rendered height, desktop is
top offset plus the content region's top padding, floored on application. -/
def specOverlayOffset (isMobile : Bool) (b : Block) : ℚ :=
  if isMobile then (b.holderOffsetTop : ℚ) + (b.holderOffsetHeight : ℚ)
  else (b.holderOffsetTop : ℚ) + b.contentPaddingTop

/-- Sample block with the spec's scenario geometry: top offset 120, height 40,
content padding-top 8. -/
def blockSample : Block :=
  { blockId := 0
    isEmpty := false
    editable := true
    holderOffsetTop := 120
    holderOffsetHeight := 40
    contentPaddingTop := 8
    boundingTop := 0 }

/-- Sample empty block. -/
def blockEmptySample : Block :=
  { blockSample with blockId := 1, isEmpty := true }

/-- Module state with the UI built and untouched. -/
def stateBuilt : ToolbarState :=
  { ToolbarState.init with nodes := some ToolbarNodes.fresh }

/-- Nodes of a toolbar that is currently open with actions and positioned. -/
def nodesOpenedSample : ToolbarNodes :=
  { toolbarOpened := true
    actionsOpened := true
    settingsTogglerHidden := false
    topStyle := TopStyle.px 128 }

/-- Module state with the toolbar open over the sample block. -/
def stateOpenedSample : ToolbarState :=
  { ToolbarState.init with
      nodes := some nodesOpenedSample
      hoveredBlock := some blockSample }

/-- Desktop, editable environment holding the sample block. -/
def envDesk : Env :=
  { blocks := [blockSample], isMobile := false, readOnlyEnabled := false }

/-- Mobile variant of the sample environment. -/
def envMobile : Env :=
  { envDesk with isMobile := true }

/-- Desktop editable environment holding one empty block. -/
def envSingleEmpty : Env :=
  { blocks := [blockEmptySample], isMobile := false, readOnlyEnabled := false }

/-- Editor configuration that opts the toolbar in (`hideConfigToolbar: false`). -/
def cfgShown : EditorConfig := { hideConfigToolbar := some false }

/-- Editor configuration with the option absent (the `?? true` default). -/
def cfgDefault : EditorConfig := { hideConfigToolbar := none }

/-! ### Event bus and settings-toggler click -/

/-- One delivered `SettingsClicked` emission. Besides the payload we record the
Block Sequence's current block as it stands at the moment of emission, so that
the set-current-then-emit ordering of `settingsToggleClicked` is observable. -/
structure EmittedSettingsClicked where
  payloadBlock : Option Block
  currentBlockAtEmit : Option Block
  deriving DecidableEq

/-- The collaborators touched by the toggler click handler: the Block
Sequence's current block and the synchronous dispatcher log. -/
structure BusEnv where
  currentBlock : Option Block
  emitted : List EmittedSettingsClicked
  deriving DecidableEq

/-- ConfigToolbar.emitBlockSettingsClicked:
`eventsDispatcher.emit(SettingsClicked, { block })`. -/
def emitBlockSettingsClicked (env : BusEnv) (b : Option Block) : BusEnv :=
  { env with emitted := env.emitted ++ [{ payloadBlock := b, currentBlockAtEmit := env.currentBlock }] }

/-- ConfigToolbar.settingsToggleClicked: first re-assign
`BlockManager.currentBlock` to the hovered block, then emit `SettingsClicked`
with the hovered block. The toolbar's own state is untouched. -/
def settingsToggleClicked (s : ToolbarState) (env : BusEnv) : ToolbarState × BusEnv :=
  let env1 := { env with currentBlock := s.hoveredBlock }
  (s, emitBlockSettingsClicked env1 s.hoveredBlock)

/-- ConfigToolbar.activate: emit `SettingsClicked` with the passed block;
no open/close change. -/
def activate (s : ToolbarState) (env : BusEnv) (b : Block) : ToolbarState × BusEnv :=
  (s, emitBlockSettingsClicked env (some b))

/-! ### Session step relation (for the reachable-state invariant) -/

/-- One dispatched UI event acting on the pair of external environment and
toolbar state: a hover / explicit `moveAndOpen`, a `close`, a direct (private)
`open`, an `activate` (which leaves the toolbar state untouched), a read-only
toggle by the ReadOnly controller (which also calls `toggleReadOnly` on the
module), the browser firing a pending idle task, or an external mutation of
the block sequence. -/
inductive Step (cfg : EditorConfig) : Env × ToolbarState → Env × ToolbarState → Prop where
  | hover (e : Env) (s : ToolbarState) (b : Option Block) :
      Step cfg (e, s) (e, moveAndOpen e s b)
  | closeCall (e : Env) (s : ToolbarState) :
      Step cfg (e, s) (e, closeRun e s)
  | openCall (e : Env) (s : ToolbarState) (withBlockActions : Bool) :
      Step cfg (e, s) (e, openRun s withBlockActions)
  | activateCall (e : Env) (s : ToolbarState) :
      Step cfg (e, s) (e, s)
  | readOnlyToggle (e : Env) (s : ToolbarState) (ro : Bool) :
      Step cfg (e, s) ({ e with readOnlyEnabled := ro }, toggleReadOnly cfg s ro)
  | idleTask (e : Env) (s : ToolbarState) :
      Step cfg (e, s) (e, idleFire e s)
  | blocksChange (e : Env) (s : ToolbarState) (bs : List Block) :
      Step cfg (e, s) ({ e with blocks := bs }, s)

/-- The states reachable from the freshly constructed module under some initial
environment. -/
def Reachable (cfg : EditorConfig) (p : Env × ToolbarState) : Prop :=
  ∃ e0 : Env, Relation.ReflTransGen (Step cfg) (e0, ToolbarState.init) p

/-- The C8 invariant: actions are never visible while the shell is closed. -/
def ShellInvariant (s : ToolbarState) : Prop :=
  openedFlag s = false → actionsVisible s = false

/-! ### Block-tune environment and MoveDownTune -/

/-- What the Editor.js API hands the tunes: the block sequence, the current
block index, and the window geometry read by the move tunes. -/
structure TuneEnv where
  blocks : List Block
  currentBlockIndex : Nat
  innerHeight : Int
  scrollY : Int
  deriving DecidableEq

/-- Modelled from the spec: the Block Sequence's "block lookup by index" query
(`api.blocks.getBlockByIndex`; the api implementation is not under src/).
An out-of-range index yields no block. -/
def getBlockByIndex (blocks : List Block) (i : Nat) : Option Block :=
  blocks.get? i

/-- Modelled from the spec: the Block Sequence's move-by-index command
(`api.blocks.move(toIndex)` moves the current block to `toIndex`; the
implementation is not under src/). The block is spliced out of its old
position and inserted at the new one, swapping adjacent blocks when the
target is the neighbouring index. -/
def moveCurrentBlock (blocks : List Block) (cur toIndex : Nat) : List Block :=
  match blocks.get? cur with
  | none => blocks
  | some b => (blocks.eraseIdx cur).insertIdx toIndex b

/-- Side effects a tune handler requests from the window and the api, in
program order. -/
inductive TuneEffect
  | scrollTo (x y : Int)
  | moveTo (toIndex : Nat)
  | toggleBlockSettings (opened : Bool)
  deriving DecidableEq

/-- MoveDownTune.handleClick, translated from
src/components/block-tunes/block-tune-move-down.ts. The boundary throw is the
error case; on success the window scroll, the move command and the
block-settings toggle are recorded as effects in program order. -/
def moveDownHandleClick (env : TuneEnv) : Except String (List TuneEffect) :=
  let currentBlockIndex := env.currentBlockIndex
  match getBlockByIndex env.blocks (currentBlockIndex + 1) with
  | none => Except.error "Unable to move Block down since it is already the last"
  | some nextBlock =>
    let scrollOffset0 : Int := |env.innerHeight - nextBlock.holderOffsetHeight|
    let scrollOffset : Int :=
      if nextBlock.boundingTop < (env.innerHeight : ℚ)
      then env.scrollY + nextBlock.holderOffsetHeight
      else scrollOffset0
    Except.ok [TuneEffect.scrollTo 0 scrollOffset,
               TuneEffect.moveTo (currentBlockIndex + 1),
               TuneEffect.toggleBlockSettings true]

/-- Applying one recorded effect to the block sequence (only the move command
mutates it). -/
def applyEffect (cur : Nat) (blocks : List Block) (eff : TuneEffect) : List Block :=
  match eff with
  | TuneEffect.moveTo toIndex => moveCurrentBlock blocks cur toIndex
  | _ => blocks

/-- The block sequence after one move-down activation: on the boundary throw
nothing has been executed, otherwise the effects run in order. -/
def runMoveDown (env : TuneEnv) : List Block :=
  match moveDownHandleClick env with
  | Except.error _ => env.blocks
  | Except.ok effs => effs.foldl (applyEffect env.currentBlockIndex) env.blocks

/-! ### DeleteTune -/

/-- The menu-entry descriptor DeleteTune.render returns (icon markup elided;
the i18n lookup is modelled as the identity on the key, and the confirmation
sub-descriptor's `onActivate` closure is `deleteHandleClick`). -/
structure DeleteDescriptor where
  title : String
  isDisabled : Bool
  tuneName : String
  confirmationTitle : String
  deriving DecidableEq

/-- DeleteTune.render: `isDisabled` dereferences
`getBlockByIndex(getCurrentBlockIndex()).editable`, which throws when there is
no current block — hence the Option result. -/
def deleteTuneRender (blocks : List Block) (currentBlockIndex : Nat) : Option DeleteDescriptor :=
  match getBlockByIndex blocks currentBlockIndex with
  | none => none
  | some b =>
    some { title := "Delete"
           isDisabled := !b.editable
           tuneName := "delete"
           confirmationTitle := "Click to delete" }

/-- Modelled from the spec: the Block Sequence's delete-current command
(`api.blocks.delete()`; not under src/) removes the current block from the
sequence. -/
def deleteCurrentBlock (blocks : List Block) (currentBlockIndex : Nat) : List Block :=
  blocks.eraseIdx currentBlockIndex

/-- DeleteTune.handleClick: `this.api.blocks.delete()`. -/
def deleteHandleClick (blocks : List Block) (currentBlockIndex : Nat) : List Block :=
  deleteCurrentBlock blocks currentBlockIndex

/-- Whether the Settings Panel's confirmation for the delete entry is armed. -/
inductive ConfirmState
  | disarmed
  | armed
  deriving DecidableEq

/-- Modelled from the spec: the external Settings Panel's confirmation protocol
(not under src/): activating a menu entry that carries a confirmation
sub-descriptor first only arms the confirmation; the next activation runs the
confirmation's `onActivate` (here DeleteTune.handleClick). -/
def panelActivateDelete (st : ConfirmState) (blocks : List Block) (currentBlockIndex : Nat) :
    ConfirmState × List Block :=
  match st with
  | ConfirmState.disarmed => (ConfirmState.armed, blocks)
  | ConfirmState.armed => (ConfirmState.disarmed, deleteHandleClick blocks currentBlockIndex)

/-- Tune environment whose current block is the last one. -/
def tuneEnvLast : TuneEnv :=
  { blocks := [blockSample, blockEmptySample]
    currentBlockIndex := 1
    innerHeight := 800
    scrollY := 0 }

/-- Tune environment whose current block has a successor on screen. -/
def tuneEnvMid : TuneEnv :=
  { tuneEnvLast with currentBlockIndex := 0 }

/-! ### Helper lemmas -/

theorem jsParseInt_of_nonneg {q : ℚ} (h : 0 ≤ q) : jsParseInt q = ⌊q⌋ := by
  unfold jsParseInt
  rw [if_neg (not_lt.mpr h)]

theorem floor_moveAndOpenToolbarY (isMobile : Bool) (b : Block)
    (hpad : 0 ≤ b.contentPaddingTop) :
    ⌊moveAndOpenToolbarY isMobile b⌋ = ⌊specOverlayOffset isMobile b⌋ := by
  cases isMobile with
  | true =>
    simp only [moveAndOpenToolbarY, specOverlayOffset, if_pos rfl]
    push_cast
    rfl
  | false =>
    simp only [moveAndOpenToolbarY, specOverlayOffset, Bool.false_eq_true, if_false]
    rw [jsParseInt_of_nonneg hpad, Int.floor_intCast]
    rw [show (b.holderOffsetTop : ℚ) + b.contentPaddingTop
          = b.contentPaddingTop + (b.holderOffsetTop : ℚ) from add_comm _ _,
        Int.floor_add_int]
    omega

theorem nodes_moveAndOpen (e : Env) (s : ToolbarState) (n : ToolbarNodes) (b : Block)
    (hn : s.nodes = some n) :
    (moveAndOpen e s (some b)).nodes = some
      { n with
          topStyle := TopStyle.px ⌊moveAndOpenToolbarY e.isMobile b⌋
          settingsTogglerHidden := (e.blocks.length == 1 && b.isEmpty)
          toolbarOpened := true
          actionsOpened := true } := by
  cases s with
  | mk nodes hov dom hsub pend =>
    simp only at hn
    subst hn
    cases hc : (e.blocks.length == 1 && b.isEmpty) with
    | true =>
      simp [moveAndOpen, openRun, blockTunesTogglerHide, blockTunesTogglerShow,
        blockActionsShow, hc]
    | false =>
      simp [moveAndOpen, openRun, blockTunesTogglerHide, blockTunesTogglerShow,
        blockActionsShow, hc]

theorem moveAndOpen_of_nodes_none (e : Env) (s : ToolbarState) (b : Block)
    (hn : s.nodes = none) : moveAndOpen e s (some b) = s := by
  cases s with
  | mk nodes hov dom hsub pend =>
    have hn' : nodes = none := hn
    subst hn'
    rfl

theorem openedFlag_moveAndOpen (e : Env) (s : ToolbarState) (n : ToolbarNodes) (b : Block)
    (hn : s.nodes = some n) : openedFlag (moveAndOpen e s (some b)) = true := by
  simp [openedFlag, nodes_moveAndOpen e s n b hn]

theorem closeRun_cases (e : Env) (s : ToolbarState) :
    closeRun e s = s ∨ actionsVisible (closeRun e s) = false := by
  cases hro : e.readOnlyEnabled with
  | true => left; simp [closeRun, close, hro]
  | false =>
    cases s with
    | mk nodes hov dom hsub pend =>
      cases nodes with
      | none => left; simp [closeRun, close, hro]
      | some n =>
        right
        simp [closeRun, close, hro, actionsVisible, reset, blockActionsHide]

/-! ### Claim theorems -/

/-- C1: for every block passed to moveAndOpen with the UI built, the applied
vertical offset equals the floor of the spec's rule — top offset plus rendered
height on a mobile viewport, top offset plus the content region's top padding
on a desktop viewport. -/
theorem claim_C1_positioning (e : Env) (s : ToolbarState) (n : ToolbarNodes) (b : Block)
    (hn : s.nodes = some n) (hpad : 0 ≤ b.contentPaddingTop) :
    topOf (moveAndOpen e s (some b)) = some (TopStyle.px ⌊specOverlayOffset e.isMobile b⌋) := by
  simp [topOf, nodes_moveAndOpen e s n b hn, floor_moveAndOpenToolbarY e.isMobile b hpad]

/-- Witness for C1 at the spec's scenarios: top 120 with padding-top 8 on
desktop gives 128; top 120 with height 40 on mobile gives 160. -/
theorem claim_C1_positioning_witness :
    topOf (moveAndOpen envDesk stateBuilt (some blockSample)) = some (TopStyle.px 128)
    ∧ topOf (moveAndOpen envMobile stateBuilt (some blockSample)) = some (TopStyle.px 160) := by
  constructor
  · have h := claim_C1_positioning envDesk stateBuilt ToolbarNodes.fresh blockSample rfl
      (by norm_num [blockSample])
    rw [h]
    norm_num [specOverlayOffset, envDesk, blockSample]
  · have h := claim_C1_positioning envMobile stateBuilt ToolbarNodes.fresh blockSample rfl
      (by norm_num [blockSample])
    rw [h]
    norm_num [specOverlayOffset, envMobile, envDesk, blockSample]

/-- C3: a moveAndOpen call with an absent block, or made before the UI is
constructed, is a silent no-op; but a close call before construction with
read-only disabled throws a TypeError (`this.nodes.actions.classList` on
undefined) instead of the claimed silent no-op — evaluated here at the
failing input. -/
theorem claim_C3_preconstruction :
    moveAndOpen envDesk ToolbarState.init none = ToolbarState.init
    ∧ moveAndOpen envDesk ToolbarState.init (some blockSample) = ToolbarState.init
    ∧ close envDesk ToolbarState.init = Except.error JsError.typeError :=
  ⟨rfl, rfl, rfl⟩

/-- C5: after moveAndOpen over a block of the sequence, the settings toggler
is hidden exactly when the sequence is that single block and it is empty;
appending a second block always shows the toggler again. -/
theorem claim_C5_toggler_visibility (e : Env) (s : ToolbarState) (n : ToolbarNodes) (b : Block)
    (hn : s.nodes = some n) (hb : b ∈ e.blocks) :
    (togglerHidden (moveAndOpen e s (some b)) = true ↔ e.blocks = [b] ∧ b.isEmpty = true)
    ∧ ∀ b2 : Block,
        togglerHidden (moveAndOpen { e with blocks := e.blocks ++ [b2] } s (some b)) = false := by
  have key : ∀ e' : Env, togglerHidden (moveAndOpen e' s (some b))
      = (e'.blocks.length == 1 && b.isEmpty) := by
    intro e'
    simp [togglerHidden, nodes_moveAndOpen e' s n b hn]
  constructor
  · rw [key e]
    constructor
    · intro h
      rw [Bool.and_eq_true, beq_iff_eq] at h
      obtain ⟨h1, h2⟩ := h
      obtain ⟨a, ha⟩ := List.length_eq_one.mp h1
      rw [ha] at hb ⊢
      have hba : b = a := by simpa using hb
      subst hba
      exact ⟨rfl, h2⟩
    · rintro ⟨h1, h2⟩
      rw [h1]
      simp [h2]
  · intro b2
    rw [key { e with blocks := e.blocks ++ [b2] }]
    have hpos : 0 < e.blocks.length := List.length_pos_of_mem hb
    have hne : ((e.blocks ++ [b2]).length == 1) = false := by
      rw [beq_eq_false_iff_ne]
      simp only [List.length_append, List.length_singleton]
      omega
    rw [hne, Bool.false_and]

/-- Witness for C5: a single empty block hides the toggler; appending a second
block shows it although the first is still empty. -/
theorem claim_C5_toggler_visibility_witness :
    togglerHidden (moveAndOpen envSingleEmpty stateBuilt (some blockEmptySample)) = true
    ∧ togglerHidden (moveAndOpen { envSingleEmpty with blocks := envSingleEmpty.blocks ++ [blockSample] }
        stateBuilt (some blockEmptySample)) = false := by
  have h := claim_C5_toggler_visibility envSingleEmpty stateBuilt ToolbarNodes.fresh
    blockEmptySample rfl (by simp [envSingleEmpty])
  exact ⟨h.1.mpr ⟨rfl, rfl⟩, h.2 blockSample⟩

/-- C6 (amended to states whose UI is constructed): under global read-only,
close is a no-op; otherwise it removes the open marker, hides the actions zone
and resets the stored offset to the unset sentinel, ending closed. -/
theorem claim_C6_close_effects (e : Env) (s : ToolbarState) (n : ToolbarNodes)
    (hn : s.nodes = some n) :
    (e.readOnlyEnabled = true → close e s = Except.ok s)
    ∧ (e.readOnlyEnabled = false →
        close e s = Except.ok
          ({ s with nodes := some ({ n with toolbarOpened := false,
                                            actionsOpened := false,
                                            topStyle := TopStyle.unset }) })
        ∧ openedFlag (closeRun e s) = false
        ∧ actionsVisible (closeRun e s) = false
        ∧ topOf (closeRun e s) = some TopStyle.unset) := by
  constructor
  · intro hro
    simp [close, hro]
  · intro hro
    cases s with
    | mk nodes hov dom hsub pend =>
      have hn' : nodes = some n := hn
      subst hn'
      refine ⟨?_, ?_, ?_, ?_⟩ <;>
        simp [close, closeRun, reset, blockActionsHide, hro, openedFlag, actionsVisible, topOf]

/-- C6 counterexample: at the concrete toolbar state before first construction
(read-only disabled), close throws a TypeError rather than performing the
claimed effects, so the claim's quantification over every toolbar state fails. -/
theorem claim_C6_counterexample :
    close envDesk ToolbarState.init = Except.error JsError.typeError := rfl

/-- Witness for C6 on a concrete open, positioned toolbar. -/
theorem claim_C6_close_effects_witness :
    close envDesk stateOpenedSample = Except.ok
      ({ stateOpenedSample with nodes := some ({ nodesOpenedSample with toolbarOpened := false, actionsOpened := false, topStyle := TopStyle.unset }) })
    ∧ topOf (closeRun envDesk stateOpenedSample) = some TopStyle.unset := by
  have h := (claim_C6_close_effects envDesk stateOpenedSample nodesOpenedSample rfl).2 rfl
  exact ⟨h.1, h.2.2.2⟩

/-- C9: clicking the settings toggler sets the Block Sequence's current block
to the hovered block before the SettingsClicked emission, the emission carries
that same hovered block, and the toolbar state (hence its open/closed state)
is unchanged. -/
theorem claim_C9_toggler_click (s : ToolbarState) (env : BusEnv) :
    (settingsToggleClicked s env).1 = s
    ∧ ((settingsToggleClicked s env).2).currentBlock = s.hoveredBlock
    ∧ ((settingsToggleClicked s env).2).emitted
        = env.emitted ++ [{ payloadBlock := s.hoveredBlock, currentBlockAtEmit := s.hoveredBlock }]
    ∧ openedFlag (settingsToggleClicked s env).1 = openedFlag s :=
  ⟨rfl, rfl, rfl, rfl⟩

theorem shellInvariant_init : ShellInvariant ToolbarState.init := by
  intro _
  rfl

theorem shellInvariant_step (cfg : EditorConfig) (p q : Env × ToolbarState)
    (hstep : Step cfg p q) (hinv : ShellInvariant p.2) : ShellInvariant q.2 := by
  cases hstep with
  | hover e s b =>
    cases b with
    | none => exact hinv
    | some blk =>
      cases hn : s.nodes with
      | none =>
        rw [moveAndOpen_of_nodes_none e s blk hn]
        exact hinv
      | some n =>
        intro h
        rw [openedFlag_moveAndOpen e s n blk hn] at h
        cases h
  | closeCall e s =>
    rcases closeRun_cases e s with h | h
    · rw [h]; exact hinv
    · intro _; exact h
  | openCall e s wba =>
    cases s with
    | mk nodes hov dom hsub pend =>
      cases nodes with
      | none => exact hinv
      | some n =>
        intro h
        cases wba <;>
          simp [openRun, openedFlag, blockActionsShow, blockActionsHide] at h
  | activateCall e s => exact hinv
  | readOnlyToggle e s ro =>
    cases hc : (!ro && !(cfg.hideConfigToolbar.getD true)) with
    | true =>
      intro h
      simp only [toggleReadOnly, hc, if_true] at h ⊢
      exact hinv h
    | false =>
      intro _
      simp [toggleReadOnly, hc, disableModuleBindings, destroy, actionsVisible]
  | idleTask e s =>
    cases s with
    | mk nodes hov dom hsub pend =>
      cases pend with
      | nil => exact hinv
      | cons t rest =>
        intro _
        simp [idleFire, enableModuleBindings, drawUI, actionsVisible, ToolbarNodes.fresh]
  | blocksChange e s bs => exact hinv

theorem shellInvariant_reachable (cfg : EditorConfig) (p : Env × ToolbarState)
    (h : Reachable cfg p) : ShellInvariant p.2 := by
  obtain ⟨e0, hrt⟩ := h
  induction hrt with
  | refl => exact shellInvariant_init
  | tail hab hstep ih => exact shellInvariant_step cfg _ _ hstep ih

/-- C8: in every reachable toolbar state, a closed shell implies hidden
actions — no operation among moveAndOpen, open, close, activate,
toggleReadOnly (and the deferred idle rebuild) breaks it. -/
theorem claim_C8_shell_invariant (cfg : EditorConfig) (e : Env) (s : ToolbarState)
    (h : Reachable cfg (e, s)) (hopen : openedFlag s = false) :
    actionsVisible s = false :=
  shellInvariant_reachable cfg (e, s) h hopen

/-- Witness for C8 at the initial (reachable) state. -/
theorem claim_C8_shell_invariant_witness :
    actionsVisible ToolbarState.init = false :=
  claim_C8_shell_invariant cfgDefault envDesk ToolbarState.init
    ⟨envDesk, Relation.ReflTransGen.refl⟩ rfl

/-- C2 counterexample: opt the toolbar in, build it once
(toggleReadOnly(false) then the idle task), then enable read-only. The
BlockHovered dispatcher subscription made by enableModuleBindings is still
registered afterwards: toggleReadOnly(true) removed the read-only-mutable DOM
listeners but not every bound handler, refuting the claim as stated. -/
theorem claim_C2_counterexample :
    (toggleReadOnly cfgShown (idleFire envDesk (toggleReadOnly cfgShown ToolbarState.init false)) true).hoverSubscriptions = 1 := rfl

/-- C2 (amended): toggleReadOnly(true) tears down the UI and clears the
read-only-mutable DOM listeners (the dispatcher subscription count is left as
is); toggleReadOnly(false) appends one idle rebuild task bounded by a 2000 ms
timeout unless the host configuration opts the toolbar out (absent option or
true), in which case nothing is scheduled and the UI stays down; and an
enable-then-disable round trip followed by the idle task leaves the toolbar
rebuilt, its listener bound, and opening on a subsequent hover. -/
theorem claim_C2_readonly_toggle (cfg : EditorConfig) (e : Env) (s : ToolbarState) (b : Block) :
    ((toggleReadOnly cfg s true).nodes = none
      ∧ (toggleReadOnly cfg s true).domListenerBound = false
      ∧ (toggleReadOnly cfg s true).hoverSubscriptions = s.hoverSubscriptions)
    ∧ (cfg.hideConfigToolbar.getD true = false →
        (toggleReadOnly cfg s false).pendingIdleTimeouts = s.pendingIdleTimeouts ++ [2000]
        ∧ (toggleReadOnly cfg s false).nodes = s.nodes)
    ∧ (cfg.hideConfigToolbar.getD true = true →
        (toggleReadOnly cfg s false).nodes = none
        ∧ (toggleReadOnly cfg s false).pendingIdleTimeouts = s.pendingIdleTimeouts)
    ∧ (cfg.hideConfigToolbar.getD true = false →
        (idleFire e (toggleReadOnly cfg (toggleReadOnly cfg s true) false)).nodes
            = some ToolbarNodes.fresh
        ∧ (idleFire e (toggleReadOnly cfg (toggleReadOnly cfg s true) false)).domListenerBound = true
        ∧ openedFlag (moveAndOpen e
            (idleFire e (toggleReadOnly cfg (toggleReadOnly cfg s true) false)) (some b)) = true) := by
  refine ⟨?_, ?_, ?_, ?_⟩
  · refine ⟨?_, ?_, ?_⟩ <;> simp [toggleReadOnly, disableModuleBindings, destroy]
  · intro hc
    constructor <;> simp [toggleReadOnly, hc]
  · intro hc
    constructor <;> simp [toggleReadOnly, hc, disableModuleBindings, destroy]
  · intro hc
    cases s with
    | mk nodes hov dom hsub pend =>
      have hfire : idleFire e (toggleReadOnly cfg
          (toggleReadOnly cfg (ToolbarState.mk nodes hov dom hsub pend) true) false)
          = enableModuleBindings e (drawUI (ToolbarState.mk none hov false hsub
              ((pend ++ [2000]).tail))) := by
        cases pend with
        | nil => simp [toggleReadOnly, hc, disableModuleBindings, destroy, idleFire]
        | cons t rest => simp [toggleReadOnly, hc, disableModuleBindings, destroy, idleFire]
      rw [hfire]
      refine ⟨rfl, rfl, ?_⟩
      exact openedFlag_moveAndOpen e _ ToolbarNodes.fresh b rfl

/-- Witness for C2 at a concrete round trip: desktop viewport, toolbar opted
in, starting from the initial state. -/
theorem claim_C2_readonly_toggle_witness :
    (idleFire envDesk (toggleReadOnly cfgShown (toggleReadOnly cfgShown ToolbarState.init true) false)).nodes
        = some ToolbarNodes.fresh
    ∧ openedFlag (moveAndOpen envDesk
        (idleFire envDesk (toggleReadOnly cfgShown (toggleReadOnly cfgShown ToolbarState.init true) false))
        (some blockSample)) = true := by
  have h := (claim_C2_readonly_toggle cfgShown envDesk ToolbarState.init blockSample).2.2.2 rfl
  exact ⟨h.1, h.2.2⟩

/-- C4: activating move-down when the current block is the last one reports
the boundary error and leaves the sequence order unchanged — no move command
is issued. -/
theorem claim_C4_movedown_boundary (env : TuneEnv)
    (hlast : env.currentBlockIndex + 1 = env.blocks.length) :
    moveDownHandleClick env = Except.error "Unable to move Block down since it is already the last"
    ∧ runMoveDown env = env.blocks := by
  have hnone : getBlockByIndex env.blocks (env.currentBlockIndex + 1) = none := by
    rw [getBlockByIndex, List.get?_eq_none]
    omega
  constructor
  · simp [moveDownHandleClick, hnone]
  · simp [runMoveDown, moveDownHandleClick, hnone]

/-- Witness for C4 on a two-block sequence whose current block is the last. -/
theorem claim_C4_movedown_boundary_witness :
    moveDownHandleClick tuneEnvLast = Except.error "Unable to move Block down since it is already the last"
    ∧ runMoveDown tuneEnvLast = tuneEnvLast.blocks :=
  claim_C4_movedown_boundary tuneEnvLast rfl

/-- C7: the delete tune needs two activations — the first only arms the
confirmation and leaves the sequence intact, the second removes exactly one
block — and its descriptor reports disabled exactly when the current block is
non-editable. -/
theorem claim_C7_delete_two_step (blocks : List Block) (i : Nat) (b : Block)
    (hb : blocks.get? i = some b) :
    (panelActivateDelete ConfirmState.disarmed blocks i).1 = ConfirmState.armed
    ∧ (panelActivateDelete ConfirmState.disarmed blocks i).2 = blocks
    ∧ (panelActivateDelete (panelActivateDelete ConfirmState.disarmed blocks i).1 blocks i).2.length + 1
        = blocks.length
    ∧ ∃ d : DeleteDescriptor, deleteTuneRender blocks i = some d
        ∧ (d.isDisabled = true ↔ b.editable = false) := by
  have hi : i < blocks.length := by
    by_contra hcon
    rw [List.get?_eq_none.mpr (le_of_not_lt hcon)] at hb
    cases hb
  refine ⟨rfl, rfl, ?_, ?_⟩
  · simp only [panelActivateDelete, deleteHandleClick, deleteCurrentBlock]
    exact List.length_eraseIdx_add_one hi
  · refine ⟨{ title := "Delete", isDisabled := !b.editable, tuneName := "delete", confirmationTitle := "Click to delete" }, ?_, ?_⟩
    · have hb' : blocks[i]? = some b := by simpa [List.get?_eq_getElem?] using hb
      simp [deleteTuneRender, getBlockByIndex, hb, hb']
    · simp

/-- Witness for C7 on a concrete two-block sequence, current block editable. -/
theorem claim_C7_delete_two_step_witness :
    (panelActivateDelete ConfirmState.disarmed [blockSample, blockEmptySample] 0).2
        = [blockSample, blockEmptySample]
    ∧ (panelActivateDelete (panelActivateDelete ConfirmState.disarmed [blockSample, blockEmptySample] 0).1
        [blockSample, blockEmptySample] 0).2.length + 1 = 2 := by
  have h := claim_C7_delete_two_step [blockSample, blockEmptySample] 0 blockSample rfl
  exact ⟨h.2.1, h.2.2.1⟩

/-- C10: a successful move-down performs, in program order, the window scroll
adjustment (adding the next block's height to scrollY when the next block's
top edge sits inside the viewport), then the move command to the next index,
then opening Block Settings — so the settings panel ends open. -/
theorem claim_C10_movedown_order (env : TuneEnv) (nextBlock : Block)
    (hnext : getBlockByIndex env.blocks (env.currentBlockIndex + 1) = some nextBlock) :
    ∃ y : Int,
      moveDownHandleClick env =
        Except.ok [TuneEffect.scrollTo 0 y,
                   TuneEffect.moveTo (env.currentBlockIndex + 1),
                   TuneEffect.toggleBlockSettings true]
      ∧ (0 ≤ nextBlock.boundingTop → nextBlock.boundingTop < (env.innerHeight : ℚ) →
          y = env.scrollY + nextBlock.holderOffsetHeight) := by
  refine ⟨if nextBlock.boundingTop < (env.innerHeight : ℚ)
          then env.scrollY + nextBlock.holderOffsetHeight
          else |env.innerHeight - nextBlock.holderOffsetHeight|, ?_, ?_⟩
  · simp [moveDownHandleClick, hnext]
  · intro _ h2
    rw [if_pos h2]

/-- Witness for C10 on a concrete sequence with an on-screen next block. -/
theorem claim_C10_movedown_order_witness :
    moveDownHandleClick tuneEnvMid =
      Except.ok [TuneEffect.scrollTo 0 40, TuneEffect.moveTo 1, TuneEffect.toggleBlockSettings true] := by
  obtain ⟨y, h1, h2⟩ := claim_C10_movedown_order tuneEnvMid blockEmptySample rfl
  have hy : y = 40 := by
    have h3 := h2 (by norm_num [blockEmptySample, blockSample])
      (by norm_num [blockEmptySample, blockSample, tuneEnvMid, tuneEnvLast])
    simpa [tuneEnvMid, tuneEnvLast, blockEmptySample, blockSample] using h3
  rw [hy] at h1
  simpa [tuneEnvMid, tuneEnvLast] using h1

end ConfigToolbarSpec
